import Mathlib

/-!
# GakutoBot (StudyScroll) — verification of the session store

Shallow embedding of `src/storage.py`, the webhook deduplication of
`src/api/server.py`, and the audio-staging flow of `src/bot/main.py`.

Modelling conventions:
* Byte strings (JSON documents, MP3 payloads) are Lean `String`s; Python
  `str` values are Unicode scalar sequences exactly as Lean `String`s are.
* The local filesystem and the GCS bucket are association lists from path /
  blob-name to content; a fresh write is a cons, lookup takes the newest.
* Nondeterministic inputs of the Python code are explicit oracle arguments:
  the random UUID drawn in `create_session`, whether the backend `put`
  succeeds, and the temp-file name `tempfile.NamedTemporaryFile` picks
  (always of the form `/tmp/...`).
* `gcs : Bool` is the process-wide `_use_gcs()` flag (`GCS_BUCKET_NAME` set).
-/

namespace StudyScroll

/-- A store (local filesystem or bucket): newest-first association list from
key (path / blob name) to content bytes. -/
abbrev KV := List (String × String)

/-- Read a key from a store. -/
def getv : KV → String → Option String
  | [], _ => none
  | (k', v) :: rest, k => if k' = k then some v else getv rest k

/-- Write a key (overwriting semantics: newest entry shadows older ones). -/
def putv (m : KV) (k v : String) : KV := (k, v) :: m

/-- Joint state of the two backing stores.  Even when GCS is active the
local filesystem exists (audio is staged there before upload). -/
structure SysState where
  fs : KV
  bucket : KV
  deriving DecidableEq

/-- The empty initial state. -/
def SysState.init : SysState := ⟨[], []⟩

/-! ## Key construction (`f"sessions/{session_id}.json"` etc.) -/

/-- `LOCAL_SESSIONS_DIR` as a path prefix. -/
def localDir : String := "storage/sessions/"

/-- Local path of the session JSON: `LOCAL_SESSIONS_DIR / f"{id}.json"`. -/
def localJsonKey (sid : String) : String := localDir ++ sid ++ ".json"

/-- Local path of the session MP3: `LOCAL_SESSIONS_DIR / f"{id}.mp3"`. -/
def localMp3Key (sid : String) : String := localDir ++ sid ++ ".mp3"

/-- GCS blob name of the session JSON: `f"sessions/{id}.json"`. -/
def gcsJsonKey (sid : String) : String := "sessions/" ++ sid ++ ".json"

/-- GCS blob name of the session MP3: `f"sessions/{id}.mp3"`. -/
def gcsMp3Key (sid : String) : String := "sessions/" ++ sid ++ ".mp3"

/-- Temp-file path chosen by `tempfile.NamedTemporaryFile(suffix=".mp3")`. -/
def tmpPath (name : String) : String := "/tmp/" ++ name

/-! ## The card document and its canonical JSON encoding

`create_session` stores `json.dumps(\x7b"topic": topic, "cards": cards\x7d,
ensure_ascii=False)`; `load_session` applies `json.loads` to the stored
text.  Cards are JSON objects with string fields (`content.py` schema), in
insertion order, so a card is an ordered list of string pairs.  The decoder
below is `json.loads` restricted to the grammar the encoder emits (the only
documents this system ever stores). -/

/-- A study card: an ordered association of string fields, e.g.
`type, title, body` or `type, question, answer`. -/
abbrev Card := List (String × String)

/-- The stored document `\x7btopic, cards\x7d`. -/
structure Doc where
  topic : String
  cards : List Card
  deriving DecidableEq

/-- Lower-case hex digit, as `"%04x" % n` uses. -/
def hexDigit (n : Nat) : Char :=
  if n < 10 then Char.ofNat (48 + n) else Char.ofNat (87 + n)

/-- Value of a hex digit character, accepting both cases. -/
def unhex (c : Char) : Option Nat :=
  if 48 ≤ c.toNat ∧ c.toNat ≤ 57 then some (c.toNat - 48)
  else if 97 ≤ c.toNat ∧ c.toNat ≤ 102 then some (c.toNat - 87)
  else if 65 ≤ c.toNat ∧ c.toNat ≤ 70 then some (c.toNat - 55)
  else none

/-- How `json.dumps` with `ensure_ascii=False` emits one character: the
seven short escapes, `\u00XX` for the remaining control characters, and
every other character — all non-ASCII included — verbatim. -/
def escapeChar (c : Char) : List Char :=
  if c = '"' then ['\\', '"']
  else if c = '\\' then ['\\', '\\']
  else if c = '\x08' then ['\\', 'b']
  else if c = '\x0c' then ['\\', 'f']
  else if c = '\n' then ['\\', 'n']
  else if c = '\r' then ['\\', 'r']
  else if c = '\t' then ['\\', 't']
  else if c.toNat < 32 then
    ['\\', 'u', '0', '0', hexDigit (c.toNat / 16), hexDigit (c.toNat % 16)]
  else [c]

/-- Escape a character sequence. -/
def escapeList (cs : List Char) : List Char := cs.flatMap escapeChar

/-- A JSON string literal: quote, escaped body, quote. -/
def encodeStrData (s : String) : List Char :=
  '"' :: (escapeList s.data ++ ['"'])

/-- One `"key": "value"` member (default `json.dumps` key separator). -/
def encodePairData (p : String × String) : List Char :=
  encodeStrData p.1 ++ ':' :: ' ' :: encodeStrData p.2

/-- Object members joined by the default item separator `", "`. -/
def encodePairsData : List (String × String) → List Char
  | [] => []
  | [p] => encodePairData p
  | p :: q :: rest => encodePairData p ++ ',' :: ' ' :: encodePairsData (q :: rest)

/-- A card as a JSON object, members in insertion order. -/
def encodeCardData (c : Card) : List Char :=
  '\x7b' :: (encodePairsData c ++ ['\x7d'])

/-- Array elements joined by the default item separator `", "`. -/
def encodeCardsData : List Card → List Char
  | [] => []
  | [c] => encodeCardData c
  | c :: c2 :: rest => encodeCardData c ++ ',' :: ' ' :: encodeCardsData (c2 :: rest)

/-- The document `json.dumps(\x7b"topic": t, "cards": cs\x7d,
ensure_ascii=False)` with the default separators. -/
def encodeDoc (t : String) (cs : List Card) : String :=
  String.mk ("\x7b\"topic\": ".data ++ encodeStrData t
    ++ ", \"cards\": [".data ++ encodeCardsData cs ++ [']', '\x7d'])

/-- Parse the body of a string literal up to its closing quote, undoing
`escapeChar`; returns the decoded characters and the unconsumed input. -/
def parseStrAux (acc : List Char) : List Char → Option (List Char × List Char)
  | [] => none
  | c :: rest =>
    if c = '"' then some (acc.reverse, rest)
    else if c = '\\' then
      match rest with
      | [] => none
      | e :: rest2 =>
        if e = '"' then parseStrAux ('"' :: acc) rest2
        else if e = '\\' then parseStrAux ('\\' :: acc) rest2
        else if e = 'b' then parseStrAux ('\x08' :: acc) rest2
        else if e = 'f' then parseStrAux ('\x0c' :: acc) rest2
        else if e = 'n' then parseStrAux ('\n' :: acc) rest2
        else if e = 'r' then parseStrAux ('\r' :: acc) rest2
        else if e = 't' then parseStrAux ('\t' :: acc) rest2
        else if e = 'u' then
          match rest2 with
          | h1 :: h2 :: h3 :: h4 :: rest3 =>
            match unhex h1, unhex h2, unhex h3, unhex h4 with
            | some a, some b, some c2, some d =>
              parseStrAux (Char.ofNat (((a * 16 + b) * 16 + c2) * 16 + d) :: acc) rest3
            | _, _, _, _ => none
          | _ => none
        else none
    else parseStrAux (c :: acc) rest

/-- Parse the members of a card object after its opening brace. -/
def parsePairsAux (fuel : Nat) (acc : List (String × String)) (inp : List Char) :
    Option (Card × List Char) :=
  match fuel with
  | 0 => none
  | fuel + 1 =>
    match inp with
    | '"' :: rest =>
      match parseStrAux [] rest with
      | none => none
      | some (k, rest1) =>
        match rest1 with
        | ':' :: ' ' :: '"' :: rest2 =>
          match parseStrAux [] rest2 with
          | none => none
          | some (v, rest3) =>
            let pair := (String.mk k, String.mk v)
            match rest3 with
            | ',' :: ' ' :: rest4 => parsePairsAux fuel (pair :: acc) rest4
            | '\x7d' :: rest4 => some ((pair :: acc).reverse, rest4)
            | _ => none
        | _ => none
    | _ => none

/-- Parse one card object. -/
def parseCard (fuel : Nat) : List Char → Option (Card × List Char)
  | '\x7b' :: '\x7d' :: rest => some ([], rest)
  | '\x7b' :: rest => parsePairsAux fuel [] rest
  | _ => none

/-- Parse the card array after its opening bracket. -/
def parseCardsAux (fuel : Nat) (acc : List Card) (inp : List Char) :
    Option (List Card × List Char) :=
  match fuel with
  | 0 => none
  | fuel + 1 =>
    match parseCard (inp.length) inp with
    | none => none
    | some (c, rest) =>
      match rest with
      | ',' :: ' ' :: rest1 => parseCardsAux fuel (c :: acc) rest1
      | ']' :: rest1 => some ((c :: acc).reverse, rest1)
      | _ => none

/-- Parse the card array, including the empty one. -/
def parseCards (fuel : Nat) : List Char → Option (List Card × List Char)
  | ']' :: rest => some ([], rest)
  | inp => parseCardsAux fuel [] inp

/-- Drop an expected literal prefix. -/
def parseLit : List Char → List Char → Option (List Char)
  | [], inp => some inp
  | l :: ls, c :: rest => if c = l then parseLit ls rest else none
  | _ :: _, [] => none

/-- `json.loads` on the canonical document grammar: the inverse of
`encodeDoc`, failing on anything else. -/
def decodeDoc (s : String) : Option Doc :=
  let cs := s.data
  match parseLit ("\x7b\"topic\": \"".data) cs with
  | none => none
  | some r1 =>
    match parseStrAux [] r1 with
    | none => none
    | some (t, r2) =>
      match parseLit (", \"cards\": [".data) r2 with
      | none => none
      | some r3 =>
        match parseCards r3.length r3 with
        | none => none
        | some (cards, r4) =>
          match r4 with
          | ['\x7d'] => some ⟨String.mk t, cards⟩
          | _ => none

/-! ## Session identifiers: `str(uuid.uuid4())[:8]` -/

/-- `create_session` mints `str(uuid.uuid4())[:8]`: the first eight
characters of the textual form of a random UUID4. -/
def sessionIdOfUuid (uuid : String) : String := uuid.take 8

/-! ## The storage operations of `storage.py`

Each operation takes the `_use_gcs()` flag `gcs` and the current state.
`create_session` additionally takes the UUID drawn and whether the
backend `put` succeeds (`putOk = false` models `upload_from_string` /
`write_text` raising); on failure the exception propagates and no
identifier is returned, modelled by `Except`. -/

/-- `create_session(topic, cards)`: serialize and store the document,
return the fresh identifier. -/
def create_session (gcs : Bool) (uuid : String) (putOk : Bool)
    (topic : String) (cards : List Card) (s : SysState) :
    Except Unit (SysState × String) :=
  let sid := sessionIdOfUuid uuid
  let data := encodeDoc topic cards
  if putOk then
    if gcs then
      .ok ({ s with bucket := putv s.bucket (gcsJsonKey sid) data }, sid)
    else
      .ok ({ s with fs := putv s.fs (localJsonKey sid) data }, sid)
  else .error ()

/-- `load_session(session_id)`: `None` when the key does not exist,
otherwise `json.loads` of the stored text. -/
def load_session (gcs : Bool) (s : SysState) (sid : String) : Option Doc :=
  if gcs then
    match getv s.bucket (gcsJsonKey sid) with
    | none => none
    | some data => decodeDoc data
  else
    match getv s.fs (localJsonKey sid) with
    | none => none
    | some data => decodeDoc data

/-- `save_audio(session_id, local_path)`: on GCS uploads the bytes of the
local file at `local_path` (raising, modelled `none`, if it is missing);
on the local backend the function body does nothing. -/
def save_audio (gcs : Bool) (s : SysState) (sid : String) (local_path : String) :
    Option SysState :=
  if gcs then
    match getv s.fs local_path with
    | none => none
    | some bytes =>
        some { s with bucket := putv s.bucket (gcsMp3Key sid) bytes }
  else some s

/-- `audio_exists(session_id)`: existence probe of the audio key on the
active backend. -/
def audio_exists (gcs : Bool) (s : SysState) (sid : String) : Bool :=
  if gcs then (getv s.bucket (gcsMp3Key sid)).isSome
  else (getv s.fs (localMp3Key sid)).isSome

/-- `get_audio_path(session_id)`: a local path holding the audio bytes, or
`None`.  On GCS a hit downloads the blob into a fresh temp file (`tmpName`
is the name `NamedTemporaryFile` picks), mutating the local filesystem. -/
def get_audio_path (gcs : Bool) (tmpName : String) (s : SysState) (sid : String) :
    Option (String × SysState) :=
  if gcs then
    match getv s.bucket (gcsMp3Key sid) with
    | none => none
    | some bytes => some (tmpPath tmpName, { s with fs := putv s.fs (tmpPath tmpName) bytes })
  else
    let p := localMp3Key sid
    if (getv s.fs p).isSome then some (p, s) else none

/-- `get_local_audio_path(session_id)`: pure path computation for the
audio staging location. -/
def get_local_audio_path (sid : String) : String := localMp3Key sid

/-- Audio synthesis (`generate_audio` in `bot/main.py` step 4) writing
`bytes` to the staging path of `sid` — possibly partial or garbage bytes
when synthesis fails midway. -/
def write_staging (s : SysState) (sid : String) (bytes : String) : SysState :=
  { s with fs := putv s.fs (get_local_audio_path sid) bytes }

/-! ## Webhook deduplication (`api/server.py`)

`_processed_updates` is an `OrderedDict` used as a FIFO set of the most
recent update ids: membership is tested before insertion, insertion
appends at the tail, and when the size exceeds `MAX_TRACKED_UPDATES` the
oldest entry (`popitem(last=False)`) is evicted. -/

/-- `MAX_TRACKED_UPDATES`. -/
def MAX_TRACKED_UPDATES : Nat := 1000

/-- The `telegram_webhook` dedup step: given the tracked ids (oldest
first) and an incoming `update_id`, return the new tracked ids and
whether a background processing task is dispatched. -/
def webhook_dedup (seen : List Nat) (uid : Nat) : List Nat × Bool :=
  if uid ∈ seen then (seen, false)
  else
    (if MAX_TRACKED_UPDATES < (seen ++ [uid]).length
      then (seen ++ [uid]).drop 1 else seen ++ [uid], true)

/-! ## Operation traces

A trace interleaves the session-store operations with the audio-synthesis
staging writes of the bot flow; read-only operations leave the state
unchanged, and a raising `create_session` / `save_audio` call leaves the
state as it was. -/

/-- One operation against the running process. -/
inductive Op where
  | create (uuid : String) (putOk : Bool) (topic : String) (cards : List Card)
  | load (sid : String)
  | saveAudio (sid : String) (path : String)
  | audioExists (sid : String)
  | getAudioPath (sid : String) (tmpName : String)
  | writeStaging (sid : String) (bytes : String)
  deriving DecidableEq

/-- State evolution of one operation. -/
def stepOp (gcs : Bool) (s : SysState) : Op → SysState
  | .create uuid putOk topic cards =>
    match create_session gcs uuid putOk topic cards s with
    | .ok (s', _) => s'
    | .error _ => s
  | .load _ => s
  | .saveAudio sid path =>
    match save_audio gcs s sid path with
    | some s' => s'
    | none => s
  | .audioExists _ => s
  | .getAudioPath sid tmp =>
    match get_audio_path gcs tmp s sid with
    | some (_, s') => s'
    | none => s
  | .writeStaging sid bytes => write_staging s sid bytes

/-- Run a trace, returning the final state. -/
def runOps (gcs : Bool) (s : SysState) : List Op → SysState
  | [] => s
  | op :: ops => runOps gcs (stepOp gcs s op) ops

/-- The externally observable result of one operation: the identifier or
failure of `createSession`, the loaded document or `NotFound`, the
success of `saveAudio`, the `audioExists` flag, or the payload bytes the
path returned by `getAudioPath` resolves to. -/
inductive Obs where
  | created (r : Option String)
  | doc (d : Option Doc)
  | saved (ok : Bool)
  | flag (b : Bool)
  | payload (b : Option String)
  | staged
  deriving DecidableEq

/-- Observe one operation in a state (`created none` is the aborted
`createSession`). -/
def obsOp (gcs : Bool) (s : SysState) : Op → Obs
  | .create uuid putOk topic cards =>
    match create_session gcs uuid putOk topic cards s with
    | .ok (_, sid) => .created (some sid)
    | .error _ => .created none
  | .load sid => .doc (load_session gcs s sid)
  | .saveAudio sid path => .saved (save_audio gcs s sid path).isSome
  | .audioExists sid => .flag (audio_exists gcs s sid)
  | .getAudioPath sid tmp =>
    match get_audio_path gcs tmp s sid with
    | some (p, s') => .payload (getv s'.fs p)
    | none => .payload none
  | .writeStaging _ _ => .staged

/-- Run a trace, returning the observations of every operation. -/
def runObs (gcs : Bool) (s : SysState) : List Op → List Obs
  | [] => []
  | op :: ops => obsOp gcs s op :: runObs gcs (stepOp gcs s op) ops

/-- The identifiers returned by the successful `createSession` calls of a
trace. -/
def createdIds : List Op → List String
  | [] => []
  | .create uuid true _ _ :: ops => sessionIdOfUuid uuid :: createdIds ops
  | _ :: ops => createdIds ops

/-- Does the trace contain a `saveAudio` call for this identifier? -/
def hasSaveAudioFor (sid : String) : List Op → Bool
  | [] => false
  | .saveAudio sid' _ :: ops => sid' = sid || hasSaveAudioFor sid ops
  | _ :: ops => hasSaveAudioFor sid ops

/-- Is the trace made of document operations (`createSession` /
`loadSession`) only? -/
def docOpsOnly : List Op → Bool
  | [] => true
  | .create _ _ _ _ :: ops => docOpsOnly ops
  | .load _ :: ops => docOpsOnly ops
  | _ => false

end StudyScroll

namespace StudyScroll

/-! ## Store lemmas -/

@[simp] theorem getv_nil (k : String) : getv [] k = none := rfl

@[simp] theorem getv_putv_self (m : KV) (k v : String) :
    getv (putv m k v) k = some v := by
  simp [getv, putv]

theorem getv_putv_other (m : KV) (k k' v : String) (h : k ≠ k') :
    getv (putv m k v) k' = getv m k' := by
  simp [getv, putv, h]

/-! ## Round-trip of the canonical document encoding -/

theorem unhex_hexDigit : ∀ n, n < 16 → unhex (hexDigit n) = some n := by decide

/-- Parsing undoes escaping: the string-literal body round-trips. -/
theorem parseStrAux_escapeList (cs : List Char) :
    ∀ (acc rest : List Char),
      parseStrAux acc (escapeList cs ++ '"' :: rest) = some (acc.reverse ++ cs, rest) := by
  induction cs with
  | nil =>
    intro acc rest
    rw [escapeList, List.flatMap_nil, List.nil_append, parseStrAux.eq_def]; simp
  | cons c cs ih =>
    intro acc rest
    have hstep : escapeList (c :: cs) = escapeChar c ++ escapeList cs := by
      simp [escapeList]
    rw [hstep, List.append_assoc, escapeChar]
    split_ifs with h1 h2 h3 h4 h5 h6 h7 h8
    · subst h1; rw [List.cons_append, List.cons_append, parseStrAux.eq_def]; simp [ih]
    · subst h2; rw [List.cons_append, List.cons_append, parseStrAux.eq_def]; simp [ih]
    · subst h3; rw [List.cons_append, List.cons_append, parseStrAux.eq_def]; simp [ih]
    · subst h4; rw [List.cons_append, List.cons_append, parseStrAux.eq_def]; simp [ih]
    · subst h5; rw [List.cons_append, List.cons_append, parseStrAux.eq_def]; simp [ih]
    · subst h6; rw [List.cons_append, List.cons_append, parseStrAux.eq_def]; simp [ih]
    · subst h7; rw [List.cons_append, List.cons_append, parseStrAux.eq_def]; simp [ih]
    · have hd1 : c.toNat / 16 < 16 := by omega
      have hd2 : c.toNat % 16 < 16 := by omega
      have h0 : unhex '0' = some 0 := by decide
      have hX : Char.ofNat (c.toNat / 16 * 16 + c.toNat % 16) = c := by
        rw [show c.toNat / 16 * 16 + c.toNat % 16 = c.toNat by omega, Char.ofNat_toNat]
      rw [parseStrAux.eq_def]
      simp only [List.cons_append]
      simp [unhex_hexDigit _ hd1, unhex_hexDigit _ hd2, h0, hX, ih]
    · rw [List.cons_append, parseStrAux.eq_def]; simp [h1, h2, ih]

theorem parseLit_self : ∀ (lit rest : List Char), parseLit lit (lit ++ rest) = some rest := by
  intro lit
  induction lit with
  | nil => intro rest; rfl
  | cons c ls ih => intro rest; simp [parseLit, ih]

/-- An encoded member list followed by the closing brace parses back to
exactly the members, in order. -/
theorem parsePairsAux_encode (ps : List (String × String)) :
    ∀ (p : String × String) (fuel : Nat) (acc : List (String × String)) (rest : List Char),
      ps.length < fuel →
      parsePairsAux fuel acc (encodePairsData (p :: ps) ++ '\x7d' :: rest) =
        some (acc.reverse ++ p :: ps, rest) := by
  induction ps with
  | nil =>
    intro p fuel acc rest h
    obtain ⟨n, rfl⟩ : ∃ n, fuel = n + 1 := ⟨fuel - 1, by omega⟩
    simp only [encodePairsData, encodePairData, encodeStrData, List.cons_append,
      List.append_assoc, List.nil_append]
    rw [parsePairsAux]
    rw [parseStrAux_escapeList]
    simp only [List.nil_append, List.reverse_nil]
    rw [parseStrAux_escapeList]
    simp
  | cons q ps ih =>
    intro p fuel acc rest h
    obtain ⟨n, rfl⟩ : ∃ n, fuel = n + 1 := ⟨fuel - 1, by omega⟩
    simp only [encodePairsData, encodePairData, encodeStrData, List.cons_append,
      List.append_assoc, List.nil_append]
    rw [parsePairsAux]
    rw [parseStrAux_escapeList]
    simp only [List.nil_append, List.reverse_nil]
    rw [parseStrAux_escapeList]
    simp only [List.nil_append]
    simp only [List.reverse_nil, List.nil_append]
    rw [ih q n ((p.1, p.2) :: acc) rest (by simpa using Nat.lt_of_succ_lt_succ h)]
    simp

theorem encodePairData_length (p : String × String) :
    6 ≤ (encodePairData p).length := by
  simp [encodePairData, encodeStrData]; omega

theorem encodePairsData_length (ps : List (String × String)) :
    ps.length ≤ (encodePairsData ps).length := by
  induction ps with
  | nil => simp [encodePairsData]
  | cons p ps ih =>
    cases ps with
    | nil => have := encodePairData_length p; simp [encodePairsData]; omega
    | cons q ps2 =>
      have := encodePairData_length p
      simp only [encodePairsData, List.length_append, List.length_cons]
      simp only [List.length_cons] at ih ⊢
      omega

theorem encodePairsData_cons_head (p : String × String) (ps : List (String × String)) :
    ∃ X, encodePairsData (p :: ps) = '"' :: X := by
  cases ps with
  | nil =>
    refine ⟨(escapeList p.1.data ++ ['"']) ++ ':' :: ' ' :: encodeStrData p.2, ?_⟩
    simp [encodePairsData, encodePairData, encodeStrData]
  | cons q ps2 =>
    refine ⟨(escapeList p.1.data ++ ['"']) ++ ':' :: ' ' :: (encodeStrData p.2
      ++ ',' :: ' ' :: encodePairsData (q :: ps2)), ?_⟩
    simp [encodePairsData, encodePairData, encodeStrData]

/-- An encoded card parses back to exactly that card. -/
theorem parseCard_encode (c : Card) (fuel : Nat) (rest : List Char)
    (h : c.length < fuel) :
    parseCard fuel (encodeCardData c ++ rest) = some (c, rest) := by
  cases c with
  | nil => rfl
  | cons p ps =>
    obtain ⟨X, hX⟩ := encodePairsData_cons_head p ps
    rw [encodeCardData, hX]
    simp only [List.cons_append, List.append_assoc, List.nil_append]
    rw [parseCard]
    · rw [show '"' :: (X ++ '\x7d' :: rest) = ('"' :: X) ++ '\x7d' :: rest from rfl, ← hX]
      exact parsePairsAux_encode ps p fuel [] rest
        (by simp only [List.length_cons] at h; omega)
    · intro r hr; simp at hr

theorem encodeCardData_length (c : Card) :
    c.length + 2 ≤ (encodeCardData c).length := by
  have := encodePairsData_length c
  simp [encodeCardData]; omega

theorem encodeCardsData_length (cs : List Card) :
    cs.length ≤ (encodeCardsData cs).length := by
  induction cs with
  | nil => simp [encodeCardsData]
  | cons c cs ih =>
    cases cs with
    | nil => have := encodeCardData_length c; simp [encodeCardsData]; omega
    | cons c2 cs2 =>
      have := encodeCardData_length c
      simp only [encodeCardsData, List.length_append, List.length_cons]
      simp only [List.length_cons] at ih ⊢
      omega

/-- An encoded card sequence followed by the closing bracket parses back
to exactly the cards, in order. -/
theorem parseCardsAux_encode (cs : List Card) :
    ∀ (c : Card) (fuel : Nat) (acc : List Card) (rest : List Char),
      cs.length < fuel →
      parseCardsAux fuel acc (encodeCardsData (c :: cs) ++ ']' :: rest) =
        some (acc.reverse ++ c :: cs, rest) := by
  induction cs with
  | nil =>
    intro c fuel acc rest h
    obtain ⟨n, rfl⟩ : ∃ n, fuel = n + 1 := ⟨fuel - 1, by omega⟩
    rw [parseCardsAux, encodeCardsData]
    rw [parseCard_encode c _ (']' :: rest)
      (by have := encodeCardData_length c; simp; omega)]
    simp
  | cons c2 cs2 ih =>
    intro c fuel acc rest h
    obtain ⟨n, rfl⟩ : ∃ n, fuel = n + 1 := ⟨fuel - 1, by omega⟩
    rw [parseCardsAux, encodeCardsData]
    rw [List.append_assoc, List.cons_append, List.cons_append]
    rw [parseCard_encode c _ (',' :: ' ' :: (encodeCardsData (c2 :: cs2) ++ ']' :: rest))
      (by have := encodeCardData_length c; simp; omega)]
    have hih := ih c2 n (c :: acc) rest (by simp only [List.length_cons] at h; omega)
    simp [hih]

theorem encodeCardsData_cons_head (c : Card) (cs : List Card) :
    ∃ X, encodeCardsData (c :: cs) = '\x7b' :: X := by
  cases cs with
  | nil => exact ⟨encodePairsData c ++ ['\x7d'], by simp [encodeCardsData, encodeCardData]⟩
  | cons c2 cs2 =>
    exact ⟨(encodePairsData c ++ ['\x7d']) ++ ',' :: ' ' :: encodeCardsData (c2 :: cs2),
      by simp [encodeCardsData, encodeCardData]⟩

theorem parseCards_encode (cs : List Card) (fuel : Nat) (rest : List Char)
    (h : cs.length ≤ fuel) :
    parseCards fuel (encodeCardsData cs ++ ']' :: rest) = some (cs, rest) := by
  cases cs with
  | nil => rfl
  | cons c cs2 =>
    obtain ⟨X, hX⟩ := encodeCardsData_cons_head c cs2
    rw [hX, List.cons_append, parseCards]
    · rw [← List.cons_append, ← hX]
      exact parseCardsAux_encode cs2 c fuel []
        rest (by simp only [List.length_cons] at h; omega)
    · intro r hr; simp at hr

/-- The canonical document encoding round-trips through the decoder: the
topic and the cards come back exactly, order and all characters
preserved. -/
theorem decodeDoc_encodeDoc (t : String) (cs : List Card) :
    decodeDoc (encodeDoc t cs) = some ⟨t, cs⟩ := by
  rw [decodeDoc, encodeDoc]
  have hdata : (String.mk ("\x7b\"topic\": ".data ++ encodeStrData t
      ++ ", \"cards\": [".data ++ encodeCardsData cs ++ [']', '\x7d'])).data
      = "\x7b\"topic\": \"".data ++ (escapeList t.data ++ '"' :: (", \"cards\": [".data
          ++ (encodeCardsData cs ++ ']' :: ['\x7d']))) := by
    show "\x7b\"topic\": ".data ++ encodeStrData t
      ++ ", \"cards\": [".data ++ encodeCardsData cs ++ [']', '\x7d'] = _
    rw [encodeStrData]
    rw [show ("\x7b\"topic\": \"".data : List Char) = "\x7b\"topic\": ".data ++ ['"'] from rfl]
    simp
  have hc := parseCards_encode cs ((encodeCardsData cs).length + 2) ['\x7d']
    (by have := encodeCardsData_length cs; omega)
  rw [hdata]
  simp [parseLit, parseStrAux_escapeList, hc]

/-! ## Key disjointness -/

theorem concat_ne_concat {x y : Char} (hxy : x ≠ y) (A B : List Char) :
    A ++ [x] ≠ B ++ [y] := by
  intro h
  have h2 := congrArg List.getLast? h
  simp [List.getLast?_concat] at h2
  exact hxy h2

theorem localJsonKey_inj {a b : String} (h : localJsonKey a = localJsonKey b) : a = b := by
  have hd := congrArg String.data h
  simp only [localJsonKey, localDir, String.data_append] at hd
  exact String.ext (List.append_cancel_left (List.append_cancel_right hd))

theorem gcsJsonKey_inj {a b : String} (h : gcsJsonKey a = gcsJsonKey b) : a = b := by
  have hd := congrArg String.data h
  simp only [gcsJsonKey, String.data_append] at hd
  exact String.ext (List.append_cancel_left (List.append_cancel_right hd))

theorem localMp3Key_ne_localJsonKey (a b : String) : localMp3Key a ≠ localJsonKey b := by
  intro h
  have hd := congrArg String.data h
  simp only [localMp3Key, localJsonKey, localDir, String.data_append] at hd
  rw [show (['.','m','p','3'] : List Char) = ['.','m','p'] ++ ['3'] from rfl,
    show (['.','j','s','o','n'] : List Char) = ['.','j','s','o'] ++ ['n'] from rfl,
    ← List.append_assoc, ← List.append_assoc] at hd
  exact concat_ne_concat (by decide) _ _ hd

theorem gcsMp3Key_ne_gcsJsonKey (a b : String) : gcsMp3Key a ≠ gcsJsonKey b := by
  intro h
  have hd := congrArg String.data h
  simp only [gcsMp3Key, gcsJsonKey, String.data_append] at hd
  rw [show (['.','m','p','3'] : List Char) = ['.','m','p'] ++ ['3'] from rfl,
    show (['.','j','s','o','n'] : List Char) = ['.','j','s','o'] ++ ['n'] from rfl,
    ← List.append_assoc, ← List.append_assoc] at hd
  exact concat_ne_concat (by decide) _ _ hd

theorem localMp3Key_inj {a b : String} (h : localMp3Key a = localMp3Key b) : a = b := by
  have hd := congrArg String.data h
  simp only [localMp3Key, localDir, String.data_append] at hd
  exact String.ext (List.append_cancel_left (List.append_cancel_right hd))

theorem gcsMp3Key_inj {a b : String} (h : gcsMp3Key a = gcsMp3Key b) : a = b := by
  have hd := congrArg String.data h
  simp only [gcsMp3Key, String.data_append] at hd
  exact String.ext (List.append_cancel_left (List.append_cancel_right hd))

theorem tmpPath_ne_localJsonKey (n a : String) : tmpPath n ≠ localJsonKey a := by
  intro h
  have hd := congrArg String.data h
  simp only [tmpPath, localJsonKey, localDir, String.data_append] at hd
  simp at hd

theorem tmpPath_ne_localMp3Key (n a : String) : tmpPath n ≠ localMp3Key a := by
  intro h
  have hd := congrArg String.data h
  simp only [tmpPath, localMp3Key, localDir, String.data_append] at hd
  simp at hd


/-! ## Step characterization and trace invariants -/

theorem stepOp_create_ok_gcs (s : SysState) (uuid topic : String) (cards : List Card) :
    stepOp true s (.create uuid true topic cards)
      = { s with bucket := putv s.bucket (gcsJsonKey (sessionIdOfUuid uuid)) (encodeDoc topic cards) } := by
  simp [stepOp, create_session]

theorem stepOp_create_ok_local (s : SysState) (uuid topic : String) (cards : List Card) :
    stepOp false s (.create uuid true topic cards)
      = { s with fs := putv s.fs (localJsonKey (sessionIdOfUuid uuid)) (encodeDoc topic cards) } := by
  simp [stepOp, create_session]

theorem stepOp_create_fail (gcs : Bool) (s : SysState) (uuid topic : String) (cards : List Card) :
    stepOp gcs s (.create uuid false topic cards) = s := by
  cases gcs <;> simp [stepOp, create_session]

theorem stepOp_load (gcs : Bool) (s : SysState) (sid : String) :
    stepOp gcs s (.load sid) = s := rfl

theorem stepOp_audioExists (gcs : Bool) (s : SysState) (sid : String) :
    stepOp gcs s (.audioExists sid) = s := rfl

theorem stepOp_saveAudio_local (s : SysState) (sid p : String) :
    stepOp false s (.saveAudio sid p) = s := by
  simp [stepOp, save_audio]

theorem stepOp_saveAudio_gcs_none (s : SysState) (sid p : String)
    (hg : getv s.fs p = none) :
    stepOp true s (.saveAudio sid p) = s := by
  simp [stepOp, save_audio, hg]

theorem stepOp_saveAudio_gcs_some (s : SysState) (sid p bytes : String)
    (hg : getv s.fs p = some bytes) :
    stepOp true s (.saveAudio sid p)
      = { s with bucket := putv s.bucket (gcsMp3Key sid) bytes } := by
  simp [stepOp, save_audio, hg]

theorem stepOp_getAudioPath_local (s : SysState) (sid tmp : String) :
    stepOp false s (.getAudioPath sid tmp) = s := by
  by_cases hg : (getv s.fs (localMp3Key sid)).isSome <;>
    simp [stepOp, get_audio_path, hg]

theorem stepOp_getAudioPath_gcs_none (s : SysState) (sid tmp : String)
    (hg : getv s.bucket (gcsMp3Key sid) = none) :
    stepOp true s (.getAudioPath sid tmp) = s := by
  simp [stepOp, get_audio_path, hg]

theorem stepOp_getAudioPath_gcs_some (s : SysState) (sid tmp bytes : String)
    (hg : getv s.bucket (gcsMp3Key sid) = some bytes) :
    stepOp true s (.getAudioPath sid tmp)
      = { s with fs := putv s.fs (tmpPath tmp) bytes } := by
  simp [stepOp, get_audio_path, hg]

theorem stepOp_writeStaging (gcs : Bool) (s : SysState) (sid bytes : String) :
    stepOp gcs s (.writeStaging sid bytes)
      = { s with fs := putv s.fs (localMp3Key sid) bytes } := rfl



/-- Only a successful `createSession` for `sid` itself can create the
document key of `sid`, on either backend. -/
theorem noDoc_runOps (gcs : Bool) (sid : String) (ops : List Op) :
    ∀ s : SysState,
      getv s.fs (localJsonKey sid) = none →
      getv s.bucket (gcsJsonKey sid) = none →
      sid ∉ createdIds ops →
      getv (runOps gcs s ops).fs (localJsonKey sid) = none
        ∧ getv (runOps gcs s ops).bucket (gcsJsonKey sid) = none := by
  induction ops with
  | nil => intro s h1 h2 _; exact ⟨h1, h2⟩
  | cons op ops ih =>
    intro s h1 h2 hmem
    rw [runOps]
    cases op with
    | create uuid putOk topic cards =>
      cases putOk with
      | false =>
        rw [stepOp_create_fail]
        exact ih _ h1 h2 (by simpa [createdIds] using hmem)
      | true =>
        have hmem2 : sessionIdOfUuid uuid ≠ sid ∧ sid ∉ createdIds ops := by
          simp only [createdIds, List.mem_cons, not_or] at hmem
          exact ⟨fun h => hmem.1 h.symm, hmem.2⟩
        cases gcs with
        | false =>
          rw [stepOp_create_ok_local]
          refine ih _ ?_ h2 hmem2.2
          rw [getv_putv_other _ _ _ _ (fun h => hmem2.1 (localJsonKey_inj h))]
          exact h1
        | true =>
          rw [stepOp_create_ok_gcs]
          refine ih _ h1 ?_ hmem2.2
          rw [getv_putv_other _ _ _ _ (fun h => hmem2.1 (gcsJsonKey_inj h))]
          exact h2
    | load sid' =>
      rw [stepOp_load]
      exact ih _ h1 h2 (by simpa [createdIds] using hmem)
    | saveAudio sid' path =>
      have hmem' : sid ∉ createdIds ops := by simpa [createdIds] using hmem
      cases gcs with
      | false =>
        rw [stepOp_saveAudio_local]
        exact ih _ h1 h2 hmem'
      | true =>
        cases hg : getv s.fs path with
        | none =>
          rw [stepOp_saveAudio_gcs_none _ _ _ hg]
          exact ih _ h1 h2 hmem'
        | some bytes =>
          rw [stepOp_saveAudio_gcs_some _ _ _ _ hg]
          refine ih _ h1 ?_ hmem'
          rw [getv_putv_other _ _ _ _ (gcsMp3Key_ne_gcsJsonKey sid' sid)]
          exact h2
    | audioExists sid' =>
      rw [stepOp_audioExists]
      exact ih _ h1 h2 (by simpa [createdIds] using hmem)
    | getAudioPath sid' tmp =>
      have hmem' : sid ∉ createdIds ops := by simpa [createdIds] using hmem
      cases gcs with
      | false =>
        rw [stepOp_getAudioPath_local]
        exact ih _ h1 h2 hmem'
      | true =>
        cases hg : getv s.bucket (gcsMp3Key sid') with
        | none =>
          rw [stepOp_getAudioPath_gcs_none _ _ _ hg]
          exact ih _ h1 h2 hmem'
        | some bytes =>
          rw [stepOp_getAudioPath_gcs_some _ _ _ _ hg]
          refine ih _ ?_ h2 hmem'
          rw [getv_putv_other _ _ _ _ (tmpPath_ne_localJsonKey tmp sid)]
          exact h1
    | writeStaging sid' bytes =>
      rw [stepOp_writeStaging]
      refine ih _ ?_ h2 (by simpa [createdIds] using hmem)
      rw [getv_putv_other _ _ _ _ (localMp3Key_ne_localJsonKey sid' sid)]
      exact h1



/-- On the remote backend, only a `saveAudio` call for `sid` itself can
create the audio blob of `sid`; staging writes, temp-file downloads and
document writes never do. -/
theorem noAudioBlob_runOps (sid : String) (ops : List Op) :
    ∀ s : SysState,
      getv s.bucket (gcsMp3Key sid) = none →
      hasSaveAudioFor sid ops = false →
      getv (runOps true s ops).bucket (gcsMp3Key sid) = none := by
  induction ops with
  | nil => intro s h _; exact h
  | cons op ops ih =>
    intro s h hno
    rw [runOps]
    cases op with
    | create uuid putOk topic cards =>
      have hno' : hasSaveAudioFor sid ops = false := by simpa [hasSaveAudioFor] using hno
      cases putOk with
      | false => rw [stepOp_create_fail]; exact ih _ h hno'
      | true =>
        rw [stepOp_create_ok_gcs]
        refine ih _ ?_ hno'
        rw [getv_putv_other _ _ _ _ (Ne.symm (gcsMp3Key_ne_gcsJsonKey sid (sessionIdOfUuid uuid)))]
        exact h
    | load sid' =>
      rw [stepOp_load]
      exact ih _ h (by simpa [hasSaveAudioFor] using hno)
    | saveAudio sid' path =>
      have hps : sid' ≠ sid ∧ hasSaveAudioFor sid ops = false := by
        simpa [hasSaveAudioFor] using hno
      cases hg : getv s.fs path with
      | none => rw [stepOp_saveAudio_gcs_none _ _ _ hg]; exact ih _ h hps.2
      | some bytes =>
        rw [stepOp_saveAudio_gcs_some _ _ _ _ hg]
        refine ih _ ?_ hps.2
        rw [getv_putv_other _ _ _ _ (fun hk => hps.1 (gcsMp3Key_inj hk))]
        exact h
    | audioExists sid' =>
      rw [stepOp_audioExists]
      exact ih _ h (by simpa [hasSaveAudioFor] using hno)
    | getAudioPath sid' tmp =>
      have hno' : hasSaveAudioFor sid ops = false := by simpa [hasSaveAudioFor] using hno
      cases hg : getv s.bucket (gcsMp3Key sid') with
      | none => rw [stepOp_getAudioPath_gcs_none _ _ _ hg]; exact ih _ h hno'
      | some bytes =>
        rw [stepOp_getAudioPath_gcs_some _ _ _ _ hg]
        exact ih _ h hno'
    | writeStaging sid' bytes =>
      rw [stepOp_writeStaging]
      exact ih _ h (by simpa [hasSaveAudioFor] using hno)





/-- Simulation between the two backends on document operations: if the
local files and the remote blobs agree on every document key, the two
backends produce identical observations on any `createSession` /
`loadSession` trace. -/
theorem parity_docOps (ops : List Op) :
    ∀ (sf sg : SysState),
      docOpsOnly ops = true →
      (∀ sid, getv sf.fs (localJsonKey sid) = getv sg.bucket (gcsJsonKey sid)) →
      runObs false sf ops = runObs true sg ops := by
  induction ops with
  | nil => intro sf sg _ _; rfl
  | cons op ops ih =>
    intro sf sg hdoc hR
    cases op with
    | create uuid putOk topic cards =>
      have hdoc' : docOpsOnly ops = true := by simpa [docOpsOnly] using hdoc
      have hobs : obsOp false sf (.create uuid putOk topic cards)
          = obsOp true sg (.create uuid putOk topic cards) := by
        cases putOk <;> simp [obsOp, create_session]
      cases putOk with
      | false =>
        rw [runObs, runObs, stepOp_create_fail, stepOp_create_fail, hobs,
          ih _ _ hdoc' hR]
      | true =>
        have htail : runObs false { sf with fs := putv sf.fs (localJsonKey (sessionIdOfUuid uuid)) (encodeDoc topic cards) } ops = runObs true { sg with bucket := putv sg.bucket (gcsJsonKey (sessionIdOfUuid uuid)) (encodeDoc topic cards) } ops := by
          apply ih _ _ hdoc'
          intro sid
          by_cases hs : sid = sessionIdOfUuid uuid
          · rw [hs, getv_putv_self, getv_putv_self]
          · rw [getv_putv_other _ _ _ _ (fun hk => hs ((localJsonKey_inj hk).symm)),
              getv_putv_other _ _ _ _ (fun hk => hs ((gcsJsonKey_inj hk).symm))]
            exact hR sid
        rw [runObs, runObs, stepOp_create_ok_local, stepOp_create_ok_gcs, hobs, htail]
    | load sid =>
      rw [runObs, runObs, stepOp_load, stepOp_load]
      have hobs : obsOp false sf (.load sid) = obsOp true sg (.load sid) := by
        simp [obsOp, load_session, hR sid]
      rw [hobs, ih _ _ (by simpa [docOpsOnly] using hdoc) hR]
    | saveAudio sid path => simp [docOpsOnly] at hdoc
    | audioExists sid => simp [docOpsOnly] at hdoc
    | getAudioPath sid tmp => simp [docOpsOnly] at hdoc
    | writeStaging sid bytes => simp [docOpsOnly] at hdoc


/-! ## Claims -/

/-- C10: on the local-filesystem backend, the staging path returned by
`get_local_audio_path` is exactly the filesystem path that `audio_exists`
probes and that `get_audio_path` returns — staging and committed storage
coincide on the local backend. -/
theorem local_staging_is_committed (s : SysState) (sid tmp : String) :
    audio_exists false s sid = (getv s.fs (get_local_audio_path sid)).isSome
    ∧ get_audio_path false tmp s sid
        = (if (getv s.fs (get_local_audio_path sid)).isSome
            then some (get_local_audio_path sid, s) else none) := by
  refine ⟨rfl, ?_⟩
  by_cases h : (getv s.fs (localMp3Key sid)).isSome <;>
    simp [get_audio_path, get_local_audio_path, h]

/-- C6: if the backend write fails during `createSession`, the whole
operation fails: no identifier is returned (the call raises), and the
identifier minted during the call remains invalid — `loadSession` on it
still answers `NotFound` afterwards, on either backend. -/
theorem create_session_put_failure_aborts (gcs : Bool) (uuid topic : String)
    (cards : List Card) (s : SysState)
    (hfresh : load_session gcs s (sessionIdOfUuid uuid) = none) :
    create_session gcs uuid false topic cards s = .error ()
    ∧ load_session gcs (stepOp gcs s (.create uuid false topic cards))
        (sessionIdOfUuid uuid) = none := by
  refine ⟨rfl, ?_⟩
  rw [stepOp_create_fail]
  exact hfresh

/-- Witness for C6 at a concrete input. -/
theorem create_session_put_failure_aborts_witness :
    load_session false SysState.init
        (sessionIdOfUuid "deadbeef-0000-4abc-8def-000000000000") = none
    ∧ (create_session false "deadbeef-0000-4abc-8def-000000000000" false
          "Photosynthesis" [] SysState.init = .error ()
       ∧ load_session false
            (stepOp false SysState.init
              (.create "deadbeef-0000-4abc-8def-000000000000" false "Photosynthesis" []))
            (sessionIdOfUuid "deadbeef-0000-4abc-8def-000000000000") = none) :=
  ⟨rfl, create_session_put_failure_aborts false "deadbeef-0000-4abc-8def-000000000000"
    "Photosynthesis" [] SysState.init rfl⟩

/-- C8 fails as stated: the identifier is `str(uuid.uuid4())[:8]`, so two
creation calls whose distinct UUID draws share their first eight
characters return the very same identifier. -/
theorem sessionId_collision :
    ("00000000-aaaa-4abc-8def-000000000001" : String)
      ≠ "00000000-bbbb-4abc-8def-000000000002"
    ∧ Except.map (fun r => r.2)
        (create_session false "00000000-aaaa-4abc-8def-000000000001" true "t" []
          SysState.init) = .ok "00000000"
    ∧ Except.map (fun r => r.2)
        (create_session false "00000000-bbbb-4abc-8def-000000000002" true "t" []
          SysState.init) = .ok "00000000" :=
  ⟨by decide, rfl, rfl⟩

/-- C8 amended: the identifier is the first eight characters of the UUID
string, so it has at most eight characters, and two creation calls return
distinct identifiers exactly when their UUID draws differ within the
first eight characters. -/
theorem sessionId_truncation (u1 u2 : String) (h : u1.take 8 ≠ u2.take 8) :
    sessionIdOfUuid u1 ≠ sessionIdOfUuid u2
    ∧ (sessionIdOfUuid u1).length ≤ 8 := by
  constructor
  · exact h
  · show (u1.take 8).length ≤ 8
    have hmk : u1.take 8 = String.mk (u1.data.take 8) :=
      String.ext (by rw [String.data_take])
    rw [hmk, String.length_eq_list_length, List.length_take]
    omega

/-- Witness for the amended C8 at concrete UUID draws. -/
theorem sessionId_truncation_witness :
    ("11111111-aaaa-4abc-8def-000000000001" : String).take 8
        ≠ ("22222222-aaaa-4abc-8def-000000000001" : String).take 8
    ∧ (sessionIdOfUuid "11111111-aaaa-4abc-8def-000000000001"
          ≠ sessionIdOfUuid "22222222-aaaa-4abc-8def-000000000001"
       ∧ (sessionIdOfUuid "11111111-aaaa-4abc-8def-000000000001").length ≤ 8) :=
  ⟨by decide, sessionId_truncation _ _ (by decide)⟩

/-- C9: a repeated inbound update identifier inside the recency structure
is recognized as a duplicate — no background task is dispatched and the
tracked set is unchanged — while a fresh identifier dispatches a task and
is appended at the tail, evicting the oldest entry (FIFO) once the bound
of 1000 is exceeded, so the structure never outgrows 1000 entries. -/
theorem webhook_dedup_duplicate (seen : List Nat) (uid v : Nat)
    (hdup : uid ∈ seen) (hlen : seen.length ≤ 1000) (hv : v ∉ seen) :
    webhook_dedup seen uid = (seen, false)
    ∧ (webhook_dedup seen v).2 = true
    ∧ (webhook_dedup seen v).1
        = (if seen.length = 1000 then (seen ++ [v]).drop 1 else seen ++ [v])
    ∧ (webhook_dedup seen v).1.length ≤ 1000 := by
  have hL : (seen ++ [v]).length = seen.length + 1 := by simp
  have hcond : (MAX_TRACKED_UPDATES < (seen ++ [v]).length) ↔ seen.length = 1000 := by
    rw [hL, MAX_TRACKED_UPDATES]
    constructor <;> omega
  have hcase : webhook_dedup seen v
      = (if seen.length = 1000 then (seen ++ [v]).drop 1 else seen ++ [v], true) := by
    rw [webhook_dedup, if_neg hv]
    by_cases h1000 : seen.length = 1000
    · rw [if_pos (hcond.mpr h1000), if_pos h1000]
    · rw [if_neg (fun hc => h1000 (hcond.mp hc)), if_neg h1000]
  refine ⟨by simp [webhook_dedup, hdup], by rw [hcase], by rw [hcase], ?_⟩
  rw [hcase]
  by_cases h1000 : seen.length = 1000
  · simp [h1000]
  · simp [h1000]
    omega

/-- Witness for C9 at a concrete tracked set. -/
theorem webhook_dedup_duplicate_witness :
    (2 ∈ [1, 2, 3] ∧ ([1, 2, 3] : List Nat).length ≤ 1000 ∧ 7 ∉ [1, 2, 3])
    ∧ (webhook_dedup [1, 2, 3] 2 = ([1, 2, 3], false)
       ∧ (webhook_dedup [1, 2, 3] 7).2 = true
       ∧ (webhook_dedup [1, 2, 3] 7).1
           = (if ([1, 2, 3] : List Nat).length = 1000
               then (([1, 2, 3] : List Nat) ++ [7]).drop 1 else [1, 2, 3] ++ [7])
       ∧ (webhook_dedup [1, 2, 3] 7).1.length ≤ 1000) :=
  ⟨⟨by decide, by decide, by decide⟩,
    webhook_dedup_duplicate [1, 2, 3] 2 7 (by decide) (by decide) (by decide)⟩



/-- C1: on either backend, a successful `createSession(topic, cards)`
returns an identifier under which `loadSession` returns exactly
`\x7btopic, cards\x7d` — card order preserved and every character of the
topic and the card fields (non-ASCII included) intact. -/
theorem create_load_roundtrip (gcs : Bool) (uuid topic : String)
    (cards : List Card) (s : SysState) :
    (create_session gcs uuid true topic cards s).map
        (fun r => load_session gcs r.1 r.2) = .ok (some ⟨topic, cards⟩) := by
  cases gcs with
  | false =>
    simp [create_session, load_session, Except.map, decodeDoc_encodeDoc]
  | true =>
    simp [create_session, load_session, Except.map, decodeDoc_encodeDoc]

/-- C7: `loadSession` on an identifier never returned by any successful
`createSession` call of the trace answers `NotFound` (`None`), on either
backend. -/
theorem load_never_created (gcs : Bool) (ops : List Op) (sid : String)
    (h : sid ∉ createdIds ops) :
    load_session gcs (runOps gcs SysState.init ops) sid = none := by
  have h2 := noDoc_runOps gcs sid ops SysState.init rfl rfl h
  cases gcs with
  | false => simp [load_session, h2.1]
  | true => simp [load_session, h2.2]

/-- Witness for C7: a trace that creates one session and stages audio; an
unrelated identifier still loads as `NotFound`. -/
theorem load_never_created_witness :
    ("zzzzzzzz" : String) ∉ createdIds
        [Op.create "11112222-aaaa-4abc-8def-000000000001" true "t" [],
         Op.writeStaging "11112222" "BYTES"]
    ∧ load_session false
        (runOps false SysState.init
          [Op.create "11112222-aaaa-4abc-8def-000000000001" true "t" [],
           Op.writeStaging "11112222" "BYTES"]) "zzzzzzzz" = none :=
  ⟨by decide, load_never_created false
    [Op.create "11112222-aaaa-4abc-8def-000000000001" true "t" [],
     Op.writeStaging "11112222" "BYTES"] "zzzzzzzz" (by decide)⟩



/-- C2 fails as stated: on the local-filesystem backend, audio synthesis
writing to the staging path makes `audioExists` true although `saveAudio`
was never called (`saveAudio` is a no-op there and the staging path is the
probed path). -/
theorem audioExists_true_without_saveAudio :
    hasSaveAudioFor "abcd1234"
        [Op.create "abcd1234-0000-4abc-8def-000000000000" true "t" [],
         Op.writeStaging "abcd1234" "MP3BYTES"] = false
    ∧ audio_exists false
        (runOps false SysState.init
          [Op.create "abcd1234-0000-4abc-8def-000000000000" true "t" [],
           Op.writeStaging "abcd1234" "MP3BYTES"]) "abcd1234" = true := by
  constructor
  · rfl
  · decide

/-- C2 amended: on the remote backend, `audioExists` is false immediately
after `createSession`, remains false under any operation sequence free of
`saveAudio` calls for that identifier — staging writes, document writes
and temp-file downloads included — and becomes true after a successful
`saveAudio`. -/
theorem audioExists_false_until_saveAudio (uuid topic : String)
    (cards : List Card) (s : SysState) (ops : List Op) (path bytes : String)
    (h0 : audio_exists true s (sessionIdOfUuid uuid) = false)
    (hno : hasSaveAudioFor (sessionIdOfUuid uuid) ops = false)
    (hstaged : getv (runOps true (stepOp true s (.create uuid true topic cards)) ops).fs path
        = some bytes) :
    audio_exists true (stepOp true s (.create uuid true topic cards))
        (sessionIdOfUuid uuid) = false
    ∧ audio_exists true (runOps true (stepOp true s (.create uuid true topic cards)) ops)
        (sessionIdOfUuid uuid) = false
    ∧ audio_exists true
        (stepOp true (runOps true (stepOp true s (.create uuid true topic cards)) ops)
          (.saveAudio (sessionIdOfUuid uuid) path))
        (sessionIdOfUuid uuid) = true := by
  have h0n : getv s.bucket (gcsMp3Key (sessionIdOfUuid uuid)) = none := by
    cases hg : getv s.bucket (gcsMp3Key (sessionIdOfUuid uuid)) with
    | none => rfl
    | some b => rw [audio_exists, if_pos rfl, hg] at h0; simp at h0
  have h1 : getv (stepOp true s (.create uuid true topic cards)).bucket
      (gcsMp3Key (sessionIdOfUuid uuid)) = none := by
    rw [stepOp_create_ok_gcs]
    rw [getv_putv_other _ _ _ _
      (Ne.symm (gcsMp3Key_ne_gcsJsonKey (sessionIdOfUuid uuid) (sessionIdOfUuid uuid)))]
    exact h0n
  have h2 := noAudioBlob_runOps (sessionIdOfUuid uuid) ops _ h1 hno
  refine ⟨by simp [audio_exists, h1], by simp [audio_exists, h2], ?_⟩
  rw [stepOp_saveAudio_gcs_some _ _ _ _ hstaged]
  simp [audio_exists]

/-- Witness for the amended C2: a concrete remote-backend run with a
staging write between creation and commit. -/
theorem audioExists_false_until_saveAudio_witness :
    (audio_exists true SysState.init (sessionIdOfUuid "abcd1234-0000-4abc-8def-000000000000") = false
     ∧ hasSaveAudioFor (sessionIdOfUuid "abcd1234-0000-4abc-8def-000000000000")
         [Op.writeStaging "abcd1234" "MP3BYTES"] = false
     ∧ getv (runOps true
          (stepOp true SysState.init (.create "abcd1234-0000-4abc-8def-000000000000" true "t" []))
          [Op.writeStaging "abcd1234" "MP3BYTES"]).fs
          (get_local_audio_path "abcd1234") = some "MP3BYTES")
    ∧ (audio_exists true
          (stepOp true SysState.init (.create "abcd1234-0000-4abc-8def-000000000000" true "t" []))
          (sessionIdOfUuid "abcd1234-0000-4abc-8def-000000000000") = false
       ∧ audio_exists true
          (runOps true
            (stepOp true SysState.init (.create "abcd1234-0000-4abc-8def-000000000000" true "t" []))
            [Op.writeStaging "abcd1234" "MP3BYTES"])
          (sessionIdOfUuid "abcd1234-0000-4abc-8def-000000000000") = false
       ∧ audio_exists true
          (stepOp true
            (runOps true
              (stepOp true SysState.init (.create "abcd1234-0000-4abc-8def-000000000000" true "t" []))
              [Op.writeStaging "abcd1234" "MP3BYTES"])
            (.saveAudio (sessionIdOfUuid "abcd1234-0000-4abc-8def-000000000000")
              (get_local_audio_path "abcd1234")))
          (sessionIdOfUuid "abcd1234-0000-4abc-8def-000000000000") = true) :=
  ⟨⟨by decide, by decide, by decide⟩,
    audioExists_false_until_saveAudio "abcd1234-0000-4abc-8def-000000000000" "t" []
      SysState.init [Op.writeStaging "abcd1234" "MP3BYTES"]
      (get_local_audio_path "abcd1234") "MP3BYTES" (by decide) (by decide) (by decide)⟩



/-- C3 fails as stated on the local backend: `save_audio` there is a
no-op, so a successful `saveAudio(id, p)` with `p` outside the staging
location of `id` copies nothing and leaves `audioExists(id)` false. -/
theorem save_audio_noop_local :
    save_audio false ⟨[("/tmp/other.mp3", "BYTES")], []⟩ "abcd1234" "/tmp/other.mp3"
      = some ⟨[("/tmp/other.mp3", "BYTES")], []⟩
    ∧ audio_exists false ⟨[("/tmp/other.mp3", "BYTES")], []⟩ "abcd1234" = false := by
  constructor
  · rfl
  · decide

/-- C3 amended: on the remote backend a successful `saveAudio(id, p)`
uploads the bytes of the local file `p` under the audio key of `id`, after
which `audioExists(id)` is true and `getAudioPath(id)` resolves to those
bytes; on the local backend `saveAudio` moves no bytes, and the same
observable outcome holds when `p` is the staging path of `id` (the bot's
calling convention), because the staged bytes already sit at the committed
location. -/
theorem save_audio_commits (s sl : SysState) (sid p bytes tmp : String)
    (hfile : getv s.fs p = some bytes)
    (hstaged : getv sl.fs (get_local_audio_path sid) = some bytes) :
    save_audio true s sid p
        = some { s with bucket := putv s.bucket (gcsMp3Key sid) bytes }
    ∧ audio_exists true { s with bucket := putv s.bucket (gcsMp3Key sid) bytes } sid = true
    ∧ (get_audio_path true tmp { s with bucket := putv s.bucket (gcsMp3Key sid) bytes } sid).map
        (fun pr => getv pr.2.fs pr.1) = some (some bytes)
    ∧ save_audio false sl sid (get_local_audio_path sid) = some sl
    ∧ audio_exists false sl sid = true
    ∧ (get_audio_path false tmp sl sid).map (fun pr => getv pr.2.fs pr.1)
        = some (some bytes) := by
  refine ⟨by simp [save_audio, hfile], by simp [audio_exists], ?_, rfl, ?_, ?_⟩
  · simp [get_audio_path]
  · simp [audio_exists, get_local_audio_path] at hstaged ⊢
    simp [hstaged]
  · simp [get_audio_path, get_local_audio_path] at hstaged ⊢
    simp [hstaged]

/-- Witness for the amended C3 at concrete states and bytes. -/
theorem save_audio_commits_witness :
    (getv (⟨[("storage/sessions/abcd1234.mp3", "MP3")], []⟩ : SysState).fs
        "storage/sessions/abcd1234.mp3" = some "MP3"
     ∧ getv (⟨[("storage/sessions/abcd1234.mp3", "MP3")], []⟩ : SysState).fs
        (get_local_audio_path "abcd1234") = some "MP3")
    ∧ (save_audio true ⟨[("storage/sessions/abcd1234.mp3", "MP3")], []⟩ "abcd1234"
          "storage/sessions/abcd1234.mp3"
        = some { (⟨[("storage/sessions/abcd1234.mp3", "MP3")], []⟩ : SysState) with
            bucket := putv [] (gcsMp3Key "abcd1234") "MP3" }
       ∧ audio_exists true { (⟨[("storage/sessions/abcd1234.mp3", "MP3")], []⟩ : SysState) with
            bucket := putv [] (gcsMp3Key "abcd1234") "MP3" } "abcd1234" = true
       ∧ (get_audio_path true "t.mp3" { (⟨[("storage/sessions/abcd1234.mp3", "MP3")], []⟩ : SysState) with
            bucket := putv [] (gcsMp3Key "abcd1234") "MP3" } "abcd1234").map
            (fun pr => getv pr.2.fs pr.1) = some (some "MP3")
       ∧ save_audio false ⟨[("storage/sessions/abcd1234.mp3", "MP3")], []⟩ "abcd1234"
            (get_local_audio_path "abcd1234")
          = some ⟨[("storage/sessions/abcd1234.mp3", "MP3")], []⟩
       ∧ audio_exists false ⟨[("storage/sessions/abcd1234.mp3", "MP3")], []⟩ "abcd1234" = true
       ∧ (get_audio_path false "t.mp3" ⟨[("storage/sessions/abcd1234.mp3", "MP3")], []⟩
            "abcd1234").map (fun pr => getv pr.2.fs pr.1) = some (some "MP3")) :=
  ⟨⟨by decide, by decide⟩,
    save_audio_commits ⟨[("storage/sessions/abcd1234.mp3", "MP3")], []⟩
      ⟨[("storage/sessions/abcd1234.mp3", "MP3")], []⟩ "abcd1234"
      "storage/sessions/abcd1234.mp3" "MP3" "t.mp3" (by decide) (by decide)⟩

/-- C4 fails as stated on the local backend: a partial staging write left
by failed synthesis is immediately visible through both `audioExists` and
`getAudioPath`. -/
theorem partial_staging_visible_local :
    hasSaveAudioFor "abcd1234" [Op.writeStaging "abcd1234" "PARTIAL"] = false
    ∧ audio_exists false
        (runOps false SysState.init [Op.writeStaging "abcd1234" "PARTIAL"])
        "abcd1234" = true
    ∧ (get_audio_path false "t.mp3"
        (runOps false SysState.init [Op.writeStaging "abcd1234" "PARTIAL"])
        "abcd1234").map (fun pr => getv pr.2.fs pr.1) = some (some "PARTIAL") := by
  refine ⟨rfl, by decide, by decide⟩

/-- C4 amended: on the remote backend, as long as no `saveAudio` call for
the identifier occurs, no operation sequence — staging writes of partial
or garbage bytes included — makes any artifact visible: `audioExists`
stays false and `getAudioPath` stays `NotFound`. -/
theorem staging_failure_invisible (sid : String) (s : SysState) (ops : List Op)
    (tmp : String)
    (h0 : getv s.bucket (gcsMp3Key sid) = none)
    (hno : hasSaveAudioFor sid ops = false) :
    audio_exists true (runOps true s ops) sid = false
    ∧ get_audio_path true tmp (runOps true s ops) sid = none := by
  have h := noAudioBlob_runOps sid ops s h0 hno
  exact ⟨by simp [audio_exists, h], by simp [get_audio_path, h]⟩

/-- Witness for the amended C4: a failed synthesis leaves partial bytes in
staging; nothing becomes visible on the remote backend. -/
theorem staging_failure_invisible_witness :
    (getv (SysState.init).bucket (gcsMp3Key "abcd1234") = none
     ∧ hasSaveAudioFor "abcd1234"
        [Op.create "abcd1234-0000-4abc-8def-000000000000" true "t" [],
         Op.writeStaging "abcd1234" "PARTIAL"] = false)
    ∧ (audio_exists true
          (runOps true SysState.init
            [Op.create "abcd1234-0000-4abc-8def-000000000000" true "t" [],
             Op.writeStaging "abcd1234" "PARTIAL"]) "abcd1234" = false
       ∧ get_audio_path true "t.mp3"
          (runOps true SysState.init
            [Op.create "abcd1234-0000-4abc-8def-000000000000" true "t" [],
             Op.writeStaging "abcd1234" "PARTIAL"]) "abcd1234" = none) :=
  ⟨⟨rfl, rfl⟩,
    staging_failure_invisible "abcd1234" SysState.init
      [Op.create "abcd1234-0000-4abc-8def-000000000000" true "t" [],
       Op.writeStaging "abcd1234" "PARTIAL"] "t.mp3" rfl rfl⟩



/-- C5 fails as stated: the same operation sequence from the same initial
state yields different observable results on the two backends —
`saveAudio` on a missing local file succeeds on the local backend (it is a
no-op there) but fails on the remote one (the upload raises). -/
theorem backend_observable_divergence :
    runObs false SysState.init [Op.saveAudio "abcd1234" "/tmp/missing.mp3"]
      ≠ runObs true SysState.init [Op.saveAudio "abcd1234" "/tmp/missing.mp3"] := by
  decide

/-- C5 amended: backend parity holds for the document operations — any
trace of `createSession` / `loadSession` calls yields identical
observations (identical NotFound outcomes, success/failure outcomes and
payloads) on the two backends — and for the bot's staged audio flow
(create, synthesize into the staging path, `saveAudio` from the staging
path, then probe and fetch), whose observations also coincide. -/
theorem backend_parity (ops : List Op) (hdoc : docOpsOnly ops = true)
    (uuid topic bytes tmp : String) (cards : List Card) :
    runObs false SysState.init ops = runObs true SysState.init ops
    ∧ runObs false SysState.init
        [Op.create uuid true topic cards,
         Op.writeStaging (sessionIdOfUuid uuid) bytes,
         Op.saveAudio (sessionIdOfUuid uuid) (get_local_audio_path (sessionIdOfUuid uuid)),
         Op.audioExists (sessionIdOfUuid uuid),
         Op.getAudioPath (sessionIdOfUuid uuid) tmp]
      = runObs true SysState.init
        [Op.create uuid true topic cards,
         Op.writeStaging (sessionIdOfUuid uuid) bytes,
         Op.saveAudio (sessionIdOfUuid uuid) (get_local_audio_path (sessionIdOfUuid uuid)),
         Op.audioExists (sessionIdOfUuid uuid),
         Op.getAudioPath (sessionIdOfUuid uuid) tmp] := by
  constructor
  · exact parity_docOps ops SysState.init SysState.init hdoc (fun _ => rfl)
  · simp [runObs, obsOp, stepOp, create_session, save_audio, audio_exists,
      get_audio_path, write_staging, get_local_audio_path, SysState.init]

/-- Witness for the amended C5 at a concrete document trace and flow. -/
theorem backend_parity_witness :
    docOpsOnly [Op.create "11112222-aaaa-4abc-8def-000000000001" true "tête" [[("type", "concept")]],
        Op.load "11112222", Op.load "unknown0"] = true
    ∧ (runObs false SysState.init
          [Op.create "11112222-aaaa-4abc-8def-000000000001" true "tête" [[("type", "concept")]],
           Op.load "11112222", Op.load "unknown0"]
        = runObs true SysState.init
          [Op.create "11112222-aaaa-4abc-8def-000000000001" true "tête" [[("type", "concept")]],
           Op.load "11112222", Op.load "unknown0"]
       ∧ runObs false SysState.init
          [Op.create "33334444-aaaa-4abc-8def-000000000001" true "t" [],
           Op.writeStaging (sessionIdOfUuid "33334444-aaaa-4abc-8def-000000000001") "MP3",
           Op.saveAudio (sessionIdOfUuid "33334444-aaaa-4abc-8def-000000000001")
             (get_local_audio_path (sessionIdOfUuid "33334444-aaaa-4abc-8def-000000000001")),
           Op.audioExists (sessionIdOfUuid "33334444-aaaa-4abc-8def-000000000001"),
           Op.getAudioPath (sessionIdOfUuid "33334444-aaaa-4abc-8def-000000000001") "t.mp3"]
        = runObs true SysState.init
          [Op.create "33334444-aaaa-4abc-8def-000000000001" true "t" [],
           Op.writeStaging (sessionIdOfUuid "33334444-aaaa-4abc-8def-000000000001") "MP3",
           Op.saveAudio (sessionIdOfUuid "33334444-aaaa-4abc-8def-000000000001")
             (get_local_audio_path (sessionIdOfUuid "33334444-aaaa-4abc-8def-000000000001")),
           Op.audioExists (sessionIdOfUuid "33334444-aaaa-4abc-8def-000000000001"),
           Op.getAudioPath (sessionIdOfUuid "33334444-aaaa-4abc-8def-000000000001") "t.mp3"]) :=
  ⟨rfl, backend_parity
    [Op.create "11112222-aaaa-4abc-8def-000000000001" true "tête" [[("type", "concept")]],
     Op.load "11112222", Op.load "unknown0"] rfl
    "33334444-aaaa-4abc-8def-000000000001" "t" "MP3" "t.mp3" []⟩


end StudyScroll
